import Mathlib

/-!
Verification of the progress-coordination and delivery-resilience engine of
FileGuru (worker.py).  Floating-point values are embedded as rationals,
timestamps as rational seconds, and the random variance added to synthetic
progress as an explicit input parameter.
-/

namespace FileGuru

/-- The three phases of the synthetic fallback progress curve
(the keys of `FallbackProgressGenerator.phases`). -/
inductive Phase where
  | initialization
  | downloading
  | finalizing
deriving DecidableEq

/-- `progress_range` of each phase in `FallbackProgressGenerator.__init__`:
initialization 0-15, downloading 15-85, finalizing 85-95 (never reach 100). -/
def progressRange : Phase → ℚ × ℚ
  | .initialization => (0, 15)
  | .downloading => (15, 85)
  | .finalizing => (85, 95)

/-- `base_rate` of each phase (progress per second). -/
def baseRate : Phase → ℚ
  | .initialization => 1/2
  | .downloading => 4/5
  | .finalizing => 1/5

/-- `variance` factor of each phase. -/
def varianceOf : Phase → ℚ
  | .initialization => 3/10
  | .downloading => 1/5
  | .finalizing => 2/5

/-- The size-class download patterns (`download_patterns`). -/
inductive Pattern where
  | small_file
  | medium_file
  | large_file
deriving DecidableEq

/-- The per-phase duration share of each pattern (the source stores it back
into each phase config as its duration share, field `duration_ratio`). -/
def patternShare : Pattern → Phase → ℚ
  | .small_file, .initialization => 1/20
  | .small_file, .downloading => 17/20
  | .small_file, .finalizing => 1/10
  | .medium_file, .initialization => 1/10
  | .medium_file, .downloading => 3/4
  | .medium_file, .finalizing => 3/20
  | .large_file, .initialization => 3/20
  | .large_file, .downloading => 7/10
  | .large_file, .finalizing => 3/20

/-- Pattern selection from the estimated duration (`__init__` and
`adjust_duration_estimate`): small ≤ 120s, medium ≤ 600s, large otherwise. -/
def patternFor (estimated_duration : ℚ) : Pattern :=
  if estimated_duration ≤ 120 then .small_file
  else if estimated_duration ≤ 600 then .medium_file
  else .large_file

/-- State of a `FallbackProgressGenerator`.  The per-phase configuration is
captured by the fixed tables above plus the selected `pattern`. -/
structure GenState where
  client_id : String
  start_time : ℚ
  estimated_duration : ℚ
  current_progress : ℚ
  current_phase : Phase
  last_update_time : ℚ
  pattern : Pattern
deriving DecidableEq

/-- Python `estimated_duration or 300`: `None` and `0` are falsy. -/
def orDefault300 (d : Option ℚ) : ℚ :=
  match d with
  | none => 300
  | some x => if x = 0 then 300 else x

/-- `FallbackProgressGenerator.__init__` at wall-clock time `now`. -/
def initGen (client_id : String) (now : ℚ) (estimated_duration : Option ℚ) : GenState :=
  let dur := orDefault300 estimated_duration
  { client_id := client_id
    start_time := now
    estimated_duration := dur
    current_progress := 0
    current_phase := .initialization
    last_update_time := now
    pattern := patternFor dur }

/-- `FallbackProgressGenerator.get_current_phase`. -/
def get_current_phase (g : GenState) (elapsed_seconds : ℚ) : Phase :=
  let init_duration := g.estimated_duration * patternShare g.pattern .initialization
  let download_duration := g.estimated_duration * patternShare g.pattern .downloading
  if elapsed_seconds ≤ init_duration then .initialization
  else if elapsed_seconds ≤ init_duration + download_duration then .downloading
  else .finalizing

/-- The two non-linear shaping curves `r ** 0.9` (downloading) and
`r ** 1.5` (finalizing) are irrational real powers, so the embedding carries
them as function parameters; the mathematically relevant fact that each maps
[0,1] into [0,1] (true of both real powers) is a hypothesis where needed.
The initialization curve `1 - (1 - r) ** 2` is exact. -/
structure PowFns where
  pow09 : ℚ → ℚ
  pow15 : ℚ → ℚ

/-- A concrete instance of the power curves (used for concrete evaluations;
the identity maps [0,1] into [0,1] like the real powers do). -/
def idPow : PowFns :=
  { pow09 := fun r => r
    pow15 := fun r => r }

/-- The phase-specific non-linear shaping of the within-phase ratio
(`calculate_phase_progress`, the `adjusted_ratio` branches). -/
def shapedOf (P : PowFns) (phase : Phase) (r : ℚ) : ℚ :=
  match phase with
  | .initialization => 1 - (1 - r) ^ 2
  | .downloading => P.pow09 r
  | .finalizing => P.pow15 r

/-- `FallbackProgressGenerator.calculate_phase_progress`. -/
def calculate_phase_progress (P : PowFns) (g : GenState) (phase_name : Phase)
    (elapsed_seconds phase_elapsed : ℚ) : ℚ :=
  let mn := (progressRange phase_name).1
  let mx := (progressRange phase_name).2
  let phase_duration := g.estimated_duration * patternShare g.pattern phase_name
  if phase_duration ≤ 0 then mn
  else
    let r := min 1 (phase_elapsed / phase_duration)
    let adjusted := shapedOf P phase_name r
    min mx (mn + (mx - mn) * adjusted)

/-- `FallbackProgressGenerator.add_realistic_variance`; `variation` stands for
the sampled `random.uniform(-variance, variance)`. -/
def add_realistic_variance (g : GenState) (base_progress : ℚ) (variation : ℚ) : ℚ :=
  let adjusted_progress := base_progress + variation
  if adjusted_progress < g.current_progress - 1/2 then g.current_progress - 1/10
  else adjusted_progress

/-- `FallbackProgressGenerator.update_progress` at wall-clock time `now`,
returning the new generator state together with the returned progress value. -/
def update_progress (P : PowFns) (g : GenState) (now variation : ℚ) : GenState × ℚ :=
  let elapsed_seconds := now - g.start_time
  let new_phase := get_current_phase g elapsed_seconds
  let g1 : GenState := { g with current_phase := new_phase }
  let init_duration := g1.estimated_duration * patternShare g1.pattern .initialization
  let download_duration := g1.estimated_duration * patternShare g1.pattern .downloading
  let phase_elapsed :=
    match new_phase with
    | .initialization => elapsed_seconds
    | .downloading => elapsed_seconds - init_duration
    | .finalizing => elapsed_seconds - init_duration - download_duration
  let target_progress := calculate_phase_progress P g1 new_phase elapsed_seconds phase_elapsed
  let varied0 := add_realistic_variance g1 target_progress variation
  let time_since_last_update := now - g1.last_update_time
  let max_increment := baseRate new_phase * time_since_last_update * 2
  let varied1 :=
    if g1.current_progress + max_increment < varied0 then g1.current_progress + max_increment
    else varied0
  let varied2 := if varied1 < g1.current_progress - 1/10 then g1.current_progress else varied1
  let newp := min 95 (max 0 varied2)
  ({ g1 with current_progress := newp, last_update_time := now }, newp)

/-- The sequence of values returned by successive `update_progress()` calls,
one `(now, variation)` pair per call. -/
def genOutputs (P : PowFns) (g : GenState) : List (ℚ × ℚ) → List ℚ
  | [] => []
  | (t, v) :: rest =>
    let step := update_progress P g t v
    step.2 :: genOutputs P step.1 rest

theorem update_progress_fst_current (P : PowFns) (g : GenState) (now variation : ℚ) :
    (update_progress P g now variation).1.current_progress =
      (update_progress P g now variation).2 := rfl

theorem update_progress_mem (P : PowFns) (g : GenState) (now variation : ℚ) :
    0 ≤ (update_progress P g now variation).2 ∧ (update_progress P g now variation).2 ≤ 95 := by
  simp only [update_progress]
  exact ⟨le_min (by norm_num) (le_max_left _ _), min_le_left _ _⟩

theorem clamp_lb (c v : ℚ) (hc : c ≤ 95) :
    c - 1/10 ≤ min 95 (max 0 (if v < c - 1/10 then c else v)) := by
  apply le_min (by linarith)
  refine le_trans ?_ (le_max_right 0 _)
  split_ifs with h
  · linarith
  · linarith

theorem update_progress_lb (P : PowFns) (g : GenState) (now variation : ℚ)
    (h : g.current_progress ≤ 95) :
    g.current_progress - 1/10 ≤ (update_progress P g now variation).2 := by
  simp only [update_progress]
  exact clamp_lb _ _ h

theorem genOutputs_cons (P : PowFns) (g : GenState) (t v : ℚ) (rest : List (ℚ × ℚ)) :
    genOutputs P g ((t, v) :: rest) =
      (update_progress P g t v).2 :: genOutputs P (update_progress P g t v).1 rest := rfl

/-- Claim C1: every value returned by a sequence of successive
`update_progress()` calls lies in [0, 95], and each returned value is at least
the previous returned value minus 0.1, for any seed `current_progress` in
[0, 100] — in particular also after `activate_fallback` has overwritten the
generator's starting point with a validated real progress value (which lies in
[0, 100]). -/
theorem C1_fallback_progress_bounds (P : PowFns) (g : GenState) (ins : List (ℚ × ℚ))
    (h0 : 0 ≤ g.current_progress) (h1 : g.current_progress ≤ 100) :
    (∀ x ∈ genOutputs P g ins, 0 ≤ x ∧ x ≤ 95) ∧
      List.Chain' (fun a b => a - 1/10 ≤ b) (genOutputs P g ins) := by
  induction ins generalizing g with
  | nil => exact ⟨by simp [genOutputs], by simp [genOutputs]⟩
  | cons p rest ih =>
    obtain ⟨t, v⟩ := p
    have hmem := update_progress_mem P g t v
    have hcur : (update_progress P g t v).1.current_progress =
        (update_progress P g t v).2 := update_progress_fst_current P g t v
    have hrest := ih (update_progress P g t v).1
      (by rw [hcur]; exact hmem.1) (by rw [hcur]; exact hmem.2.trans (by norm_num))
    rw [genOutputs_cons]
    constructor
    · intro x hx
      rcases List.mem_cons.mp hx with h | h
      · exact h ▸ hmem
      · exact hrest.1 x h
    · refine List.chain'_cons'.mpr ⟨?_, hrest.2⟩
      intro y hy
      cases hrec : rest with
      | nil => simp [hrec, genOutputs] at hy
      | cons q qs =>
        obtain ⟨t2, v2⟩ := q
        rw [hrec, genOutputs_cons, List.head?_cons, Option.mem_some_iff] at hy
        subst hy
        have := update_progress_lb P (update_progress P g t v).1 t2 v2
          (by rw [hcur]; exact hmem.2)
        rw [hcur] at this
        exact this

/-- A generator seed used for concrete evaluation: starting point overwritten
with the real progress value 100 at fallback activation. -/
def c1Gen : GenState :=
  { initGen "c1" 0 (some 300) with current_progress := 100 }

theorem C1_witness :
    (0 : ℚ) ≤ c1Gen.current_progress ∧ c1Gen.current_progress ≤ 100 ∧
      ((∀ x ∈ genOutputs idPow c1Gen [(1, 0), (2, 0), (3, 0)], 0 ≤ x ∧ x ≤ 95) ∧
        List.Chain' (fun a b => a - 1/10 ≤ b) (genOutputs idPow c1Gen [(1, 0), (2, 0), (3, 0)])) :=
  ⟨by norm_num [c1Gen, initGen, orDefault300], by norm_num [c1Gen, initGen, orDefault300],
    C1_fallback_progress_bounds idPow c1Gen [(1, 0), (2, 0), (3, 0)]
      (by norm_num [c1Gen, initGen, orDefault300]) (by norm_num [c1Gen, initGen, orDefault300])⟩

/-- `adjust_duration_estimate`: re-derive the size-class pattern when the new
estimate differs from the current one by more than 60 seconds.  Python
`if new_estimate and new_estimate != self.estimated_duration` (0 is falsy). -/
def adjust_duration_estimate (g : GenState) (new_estimate : ℚ) : GenState :=
  if new_estimate ≠ 0 ∧ new_estimate ≠ g.estimated_duration then
    let old_estimate := g.estimated_duration
    let g1 : GenState := { g with estimated_duration := new_estimate }
    if 60 < |new_estimate - old_estimate| then
      { g1 with pattern := patternFor g1.estimated_duration }
    else g1
  else g

/-- Kernel-computable floor of a rational (`Int.fdiv` is floor division). -/
def ratFloorZ (q : ℚ) : ℤ := Int.fdiv q.num (q.den : ℤ)

/-- Python `int()` truncates toward zero (`Int.tdiv` is T-division). -/
def pyIntTrunc (q : ℚ) : ℤ := Int.tdiv q.num (q.den : ℤ)

/-- Round half to even, as Python `round` does (used by `_validate_progress`
and by `f"{x:.0f}"` formatting). -/
def pyRoundHalfEven (q : ℚ) : ℤ :=
  let f := ratFloorZ q
  let frac := q - (f : ℚ)
  if frac < 1/2 then f
  else if 1/2 < frac then f + 1
  else if f % 2 = 0 then f else f + 1

/-- Python `round(x, 1)`. -/
def pyRoundTo1 (q : ℚ) : ℚ := (pyRoundHalfEven (10 * q) : ℚ) / 10

/-- `DownloadWorker._validate_progress`: clamp to [0, 100], then round to one
decimal place.  (The `except` arm is unreachable for a numeric input.) -/
def validate_progress (progress : ℚ) : ℚ :=
  if progress < 0 then 0
  else if 100 < progress then 100
  else pyRoundTo1 progress

/-- State of a `ProgressState` (one per client). -/
structure ProgressState where
  client_id : String
  real_progress : Option ℚ
  simulated_progress : ℚ
  last_real_update : Option ℚ
  fallback_active : Bool
  progress_history : List (ℚ × ℚ)
  estimated_duration : Option ℚ
  download_start_time : ℚ
  current_phase : String
  last_progress_value : ℚ
  stall_detection_time : Option ℚ
  progress_type : String
  max_history_size : ℕ
  stall_timeout : ℚ
  fallback_timeout : ℚ
  fallback_generator : Option GenState
deriving DecidableEq

/-- `ProgressState.__init__` at wall-clock time `now`. -/
def initProgressState (client_id : String) (now : ℚ) : ProgressState :=
  { client_id := client_id
    real_progress := none
    simulated_progress := 0
    last_real_update := none
    fallback_active := false
    progress_history := []
    estimated_duration := none
    download_start_time := now
    current_phase := "initializing"
    last_progress_value := 0
    stall_detection_time := none
    progress_type := "real"
    max_history_size := 10
    stall_timeout := 15
    fallback_timeout := 5
    fallback_generator := none }

/-- ETA parsing inside `update_estimated_duration_from_eta` (`MM:SS` or
`HH:MM:SS`; a failed `int()` raises `ValueError`, caught by the method). -/
def parseEtaSeconds (eta_str : String) : Option ℕ :=
  match eta_str.splitOn ":" with
  | [m, s] => do
    let mv ← m.toNat?
    let sv ← s.toNat?
    pure (mv * 60 + sv)
  | [h, m, s] => do
    let hv ← h.toNat?
    let mv ← m.toNat?
    let sv ← s.toNat?
    pure (hv * 3600 + mv * 60 + sv)
  | _ => none

/-- `ProgressState.update_estimated_duration_from_eta`.  A division by a zero
elapsed time raises `ZeroDivisionError`, which the method catches leaving the
state unchanged; `int()` truncates (the value here is positive, so floor). -/
def update_estimated_duration_from_eta (s : ProgressState) (now : ℚ) (eta_str : String) :
    ProgressState :=
  if eta_str.contains ':' then
    match parseEtaSeconds eta_str with
    | none => s
    | some _ =>
      match s.real_progress with
      | none => s
      | some rp =>
        if 0 < rp then
          let remaining_progress := 100 - rp
          if 0 < remaining_progress then
            let elapsed := now - s.download_start_time
            if elapsed = 0 then s
            else
              let progress_rate := rp / elapsed
              if 0 < progress_rate then
                let estimated_total := 100 / progress_rate
                let d : ℚ := (pyIntTrunc estimated_total : ℚ)
                let s1 := { s with estimated_duration := some d }
                match s1.fallback_generator with
                | some g =>
                  { s1 with fallback_generator := some (adjust_duration_estimate g d) }
                | none => s1
              else s
          else s
        else s
  else s

/-- `update_real_progress`, first block: record the sample, append to the
bounded history (capacity 10, one `pop(0)`), and set the phase thresholds
(`<5` initializing, `<95` downloading, else finalizing). -/
def urp_record_step (s : ProgressState) (now p : ℚ) : ProgressState :=
  let s1 := { s with real_progress := some p, last_real_update := some now,
                     progress_type := "real" }
  let hist := s1.progress_history ++ [(now, p)]
  let hist := if s1.max_history_size < hist.length then hist.drop 1 else hist
  let s2 := { s1 with progress_history := hist }
  let phase := if p < 5 then "initializing" else if p < 95 then "downloading"
               else "finalizing"
  { s2 with current_phase := phase }

/-- `update_real_progress`, stall-timer block: reset stall detection when
progress increased, otherwise start the timer if not already running. -/
def urp_stall_step (s : ProgressState) (now p : ℚ) : ProgressState :=
  if s.last_progress_value < p then
    { s with stall_detection_time := none, last_progress_value := p }
  else if s.stall_detection_time = none then
    { s with stall_detection_time := some now }
  else s

/-- `update_real_progress`, ETA block: `if eta and self.estimated_duration is
None` (a non-empty string is truthy). -/
def urp_eta_step (s : ProgressState) (now : ℚ) (eta : Option String) : ProgressState :=
  match eta with
  | some e =>
    if e ≠ "" ∧ s.estimated_duration = none
    then update_estimated_duration_from_eta s now e else s
  | none => s

/-- `update_real_progress`, final block: deactivate fallback when the sample
exceeds the `simulated_progress` field. -/
def urp_fallback_step (s : ProgressState) (p : ℚ) : ProgressState :=
  if s.fallback_active = true ∧ s.simulated_progress < p then
    { s with fallback_active := false }
  else s

/-- `ProgressState.update_real_progress` at wall-clock time `now`, returning
the new state and the boolean result.  `speed` and `total_size` are accepted
and ignored, exactly as in the source; the body is the source's blocks in
order. -/
def update_real_progress (s : ProgressState) (now : ℚ) (progress : Option ℚ)
    (speed eta total_size : Option String) : ProgressState × Bool :=
  match progress with
  | none => (s, false)
  | some p =>
    if p < 0 ∨ 100 < p then (s, false)
    else
      (urp_fallback_step
        (urp_eta_step (urp_stall_step (urp_record_step s now p) now p) now eta) p, true)

/-- `ProgressState.activate_fallback` at wall-clock time `now`.  On first
creation the generator's starting point is overwritten with the stored real
progress value when one exists. -/
def activate_fallback (s : ProgressState) (now : ℚ) : ProgressState :=
  if s.fallback_active then s
  else
    let pt := match s.real_progress with
              | none => "simulated"
              | some _ => "hybrid"
    let gen :=
      match s.fallback_generator with
      | some g => some g
      | none =>
        let g0 := initGen s.client_id now s.estimated_duration
        match s.real_progress with
        | some r => some { g0 with current_progress := r }
        | none => some g0
    { s with fallback_active := true, progress_type := pt, fallback_generator := gen }

/-- `ProgressState.get_simulated_progress`: lazily create the generator, then
tick it once and return its value. -/
def get_simulated_progress (P : PowFns) (s : ProgressState) (now variation : ℚ) :
    ProgressState × ℚ :=
  let g := match s.fallback_generator with
           | some g => g
           | none => initGen s.client_id now s.estimated_duration
  let step := update_progress P g now variation
  ({ s with fallback_generator := some step.1 }, step.2)

/-- The fallback-activation check shared verbatim by
`ProgressState.get_current_progress` and the start of
`DownloadWorker._ensure_progress_continuity`. -/
def check_fallback_activation (s : ProgressState) (now : ℚ) : ProgressState :=
  if s.fallback_active then s
  else
    match s.last_real_update with
    | none =>
      if s.fallback_timeout < now - s.download_start_time then activate_fallback s now else s
    | some t =>
      if s.stall_timeout < now - t then activate_fallback s now else s

/-- `ProgressState.get_current_progress`.  `variation` feeds the at most one
generator tick the call performs. -/
def get_current_progress (P : PowFns) (s : ProgressState) (now variation : ℚ) :
    ProgressState × ℚ :=
  let s1 := check_fallback_activation s now
  if s1.fallback_active then get_simulated_progress P s1 now variation
  else
    match s1.real_progress with
    | some r => (s1, r)
    | none => get_simulated_progress P s1 now variation

/-- The state transition of `DownloadWorker._ensure_progress_continuity`
before its final `get_current_progress` read.  When fallback is active and a
real sample is stored, the comparison ticks the generator once (`v1`); when
the transition fires, the transition log line evaluates
`get_simulated_progress()` a second time (`v2`). -/
def continuity_transition (P : PowFns) (s : ProgressState) (now v1 v2 : ℚ) : ProgressState :=
  if s.fallback_active = false then check_fallback_activation s now
  else
    match s.real_progress with
    | some r =>
      let step1 := get_simulated_progress P s now v1
      if step1.2 < r then
        let step2 := get_simulated_progress P step1.1 now v2
        { step2.1 with fallback_active := false, progress_type := "real" }
      else step1.1
    | none => s

/-- `DownloadWorker._ensure_progress_continuity`: the transition followed by a
`get_current_progress` read (`v3` feeds that read's possible tick). -/
def ensure_progress_continuity (P : PowFns) (s : ProgressState) (now v1 v2 v3 : ℚ) :
    ProgressState × ℚ :=
  get_current_progress P (continuity_transition P s now v1 v2) now v3

/-- `ProgressState.is_stalled`. -/
def is_stalled (s : ProgressState) (now : ℚ) : Bool :=
  match s.stall_detection_time with
  | none => false
  | some t => decide (s.stall_timeout < now - t)

/-- The part of the metadata dict built by `ProgressState.get_progress_metadata`
that the throttling logic reads (the fallback-specific extras are not consulted
by any decision modelled here).  The dict always carries these keys, so it is
never empty (never falsy). -/
structure Metadata where
  progress_type : String
  fallback_active : Bool
  current_phase : String
  is_stalled : Bool
  time_since_start : ℚ
  history_size : ℕ
deriving DecidableEq

/-- `ProgressState.get_progress_metadata`. -/
def get_progress_metadata (s : ProgressState) (now : ℚ) : Metadata :=
  { progress_type := s.progress_type
    fallback_active := s.fallback_active
    current_phase := s.current_phase
    is_stalled := is_stalled s now
    time_since_start := now - s.download_start_time
    history_size := s.progress_history.length }

theorem ueta_preserves (s : ProgressState) (now : ℚ) (e : String) :
    (update_estimated_duration_from_eta s now e).real_progress = s.real_progress ∧
    (update_estimated_duration_from_eta s now e).fallback_active = s.fallback_active ∧
    (update_estimated_duration_from_eta s now e).simulated_progress = s.simulated_progress ∧
    (update_estimated_duration_from_eta s now e).progress_type = s.progress_type := by
  unfold update_estimated_duration_from_eta
  dsimp only
  repeat' split
  all_goals exact ⟨rfl, rfl, rfl, rfl⟩

theorem urp_record_fields (s : ProgressState) (now p : ℚ) :
    (urp_record_step s now p).real_progress = some p ∧
    (urp_record_step s now p).fallback_active = s.fallback_active ∧
    (urp_record_step s now p).simulated_progress = s.simulated_progress ∧
    (urp_record_step s now p).progress_type = "real" :=
  ⟨rfl, rfl, rfl, rfl⟩

theorem urp_stall_preserves (s : ProgressState) (now p : ℚ) :
    (urp_stall_step s now p).real_progress = s.real_progress ∧
    (urp_stall_step s now p).fallback_active = s.fallback_active ∧
    (urp_stall_step s now p).simulated_progress = s.simulated_progress ∧
    (urp_stall_step s now p).progress_type = s.progress_type := by
  unfold urp_stall_step
  repeat' split
  all_goals exact ⟨rfl, rfl, rfl, rfl⟩

theorem urp_eta_preserves (s : ProgressState) (now : ℚ) (eta : Option String) :
    (urp_eta_step s now eta).real_progress = s.real_progress ∧
    (urp_eta_step s now eta).fallback_active = s.fallback_active ∧
    (urp_eta_step s now eta).simulated_progress = s.simulated_progress ∧
    (urp_eta_step s now eta).progress_type = s.progress_type := by
  unfold urp_eta_step
  cases eta with
  | none => exact ⟨rfl, rfl, rfl, rfl⟩
  | some e =>
    by_cases h : e ≠ "" ∧ s.estimated_duration = none
    · simp only [if_pos h]
      exact ueta_preserves _ _ _
    · simp [if_neg h]

theorem urp_fallback_fields (s : ProgressState) (p : ℚ) :
    (urp_fallback_step s p).real_progress = s.real_progress ∧
    (urp_fallback_step s p).progress_type = s.progress_type ∧
    (urp_fallback_step s p).fallback_active =
      (if s.fallback_active = true ∧ s.simulated_progress < p then false
       else s.fallback_active) := by
  by_cases h : s.fallback_active = true ∧ s.simulated_progress < p <;>
    simp [urp_fallback_step, h]

/-- Claim C2 (amended): `update_real_progress(p, ...)` returns true and stores
`p` itself (unrounded — one-decimal rounding is performed earlier by the
caller's `_validate_progress`) when `p` lies in [0, 100]; when `p` is null or
outside [0, 100] it returns false and leaves every field unchanged. -/
theorem C2_update_real_progress (s : ProgressState) (now : ℚ) (p : ℚ)
    (speed eta total_size : Option String) :
    (0 ≤ p → p ≤ 100 →
      (update_real_progress s now (some p) speed eta total_size).2 = true ∧
      (update_real_progress s now (some p) speed eta total_size).1.real_progress = some p) ∧
    (p < 0 ∨ 100 < p →
      update_real_progress s now (some p) speed eta total_size = (s, false)) ∧
    update_real_progress s now none speed eta total_size = (s, false) := by
  refine ⟨?_, ?_, rfl⟩
  · intro h0 h1
    have hcond : ¬(p < 0 ∨ 100 < p) := by
      push_neg
      exact ⟨h0, h1⟩
    constructor
    · simp only [update_real_progress, if_neg hcond]
    · simp only [update_real_progress, if_neg hcond]
      rw [(urp_fallback_fields _ _).1, (urp_eta_preserves _ _ _).1,
        (urp_stall_preserves _ _ _).1, (urp_record_fields _ _ _).1]
  · intro h
    simp only [update_real_progress, if_pos h]

/-- A state exhibiting the original C2 statement's failure: the accepted value
0.25 is stored as-is, not rounded to one decimal. -/
def c2State : ProgressState := initProgressState "c2" 0

theorem C2_counterexample :
    (update_real_progress c2State 4 (some (1/4)) none none none).2 = true ∧
    (update_real_progress c2State 4 (some (1/4)) none none none).1.real_progress =
      some (1/4) ∧
    pyRoundTo1 (1/4) = 2/10 ∧
    some ((1/4 : ℚ)) ≠ some (pyRoundTo1 (1/4)) := by
  refine ⟨?_, ?_, ?_, ?_⟩ <;> with_unfolding_all decide

theorem C2_witness :
    (0 : ℚ) ≤ 226/5 ∧ (226/5 : ℚ) ≤ 100 ∧
      (update_real_progress c2State 2 (some (226/5)) none none none).2 = true ∧
      (update_real_progress c2State 2 (some (226/5)) none none none).1.real_progress =
        some (226/5) :=
  ⟨by norm_num, by norm_num,
    (C2_update_real_progress c2State 2 (226/5) none none none).1 (by norm_num) (by norm_num)⟩

theorem gsp_fallback_active (P : PowFns) (s : ProgressState) (now v : ℚ) :
    (get_simulated_progress P s now v).1.fallback_active = s.fallback_active := rfl

theorem gsp_progress_type (P : PowFns) (s : ProgressState) (now v : ℚ) :
    (get_simulated_progress P s now v).1.progress_type = s.progress_type := rfl

/-- The generator whose simulated value sits at 50 when the counterexample's
real sample of 10 arrives. -/
def c4Gen : GenState :=
  { client_id := "c4"
    start_time := 0
    estimated_duration := 300
    current_progress := 50
    current_phase := .downloading
    last_update_time := 20
    pattern := .medium_file }

/-- A `ProgressState` with fallback active, its generator simulating 50, and
its (never-updated) `simulated_progress` field still at its initial 0. -/
def c4State : ProgressState :=
  { initProgressState "c4" 0 with
      fallback_active := true
      progress_type := "hybrid"
      real_progress := some 5
      last_real_update := some 1
      fallback_generator := some c4Gen }

theorem C4_counterexample :
    c4State.fallback_active = true ∧
    c4State.fallback_generator = some c4Gen ∧
    c4Gen.current_progress = 50 ∧
    (10 : ℚ) < (update_progress idPow c4Gen 21 0).2 ∧
    (update_real_progress c4State 21 (some 10) none none none).2 = true ∧
    (update_real_progress c4State 21 (some 10) none none none).1.fallback_active = false := by
  refine ⟨?_, ?_, ?_, ?_, ?_, ?_⟩ <;> with_unfolding_all decide

/-- Claim C4 (amended): in the sample-update path, an accepted real sample
deactivates fallback exactly when it exceeds the `simulated_progress` field —
which is never written anywhere and so stays at its initial 0.0, so any
positive accepted sample deactivates fallback immediately, regardless of the
generator's current simulated value — and `progress_type` is set to `real`;
in the continuity check, deactivation happens exactly when the stored real
value exceeds the generator's freshly updated simulated value, and then
`progress_type` becomes `real`. -/
theorem C4_fallback_deactivation :
    (∀ (s : ProgressState) (now p : ℚ) (sp et sz : Option String),
      0 ≤ p → p ≤ 100 → s.fallback_active = true →
      (((update_real_progress s now (some p) sp et sz).1.fallback_active = false) ↔
        s.simulated_progress < p) ∧
      (update_real_progress s now (some p) sp et sz).1.progress_type = "real") ∧
    (∀ (P : PowFns) (s : ProgressState) (now v1 v2 r : ℚ),
      s.fallback_active = true → s.real_progress = some r →
      (((continuity_transition P s now v1 v2).fallback_active = false) ↔
        (get_simulated_progress P s now v1).2 < r) ∧
      ((get_simulated_progress P s now v1).2 < r →
        (continuity_transition P s now v1 v2).progress_type = "real")) := by
  constructor
  · intro s now p sp et sz h0 h1 hfa
    have hcond : ¬(p < 0 ∨ 100 < p) := by
      push_neg
      exact ⟨h0, h1⟩
    constructor
    · simp only [update_real_progress, if_neg hcond]
      rw [(urp_fallback_fields _ _).2.2, (urp_eta_preserves _ _ _).2.1,
        (urp_stall_preserves _ _ _).2.1, (urp_record_fields _ _ _).2.1,
        (urp_eta_preserves _ _ _).2.2.1, (urp_stall_preserves _ _ _).2.2.1,
        (urp_record_fields _ _ _).2.2.1, hfa]
      by_cases hc : s.simulated_progress < p <;> simp [hc]
    · simp only [update_real_progress, if_neg hcond]
      rw [(urp_fallback_fields _ _).2.1, (urp_eta_preserves _ _ _).2.2.2,
        (urp_stall_preserves _ _ _).2.2.2, (urp_record_fields _ _ _).2.2.2]
  · intro P s now v1 v2 r hfa hr
    unfold continuity_transition
    simp only [hfa, hr]
    by_cases hc : (get_simulated_progress P s now v1).2 < r
    · simp [hc]
    · simp [hc, gsp_fallback_active, hfa]

theorem C4_witness :
    ((0 : ℚ) ≤ 10 ∧ (10 : ℚ) ≤ 100 ∧ c4State.fallback_active = true ∧
      ((((update_real_progress c4State 21 (some 10) none none none).1.fallback_active =
          false) ↔ c4State.simulated_progress < 10) ∧
        (update_real_progress c4State 21 (some 10) none none none).1.progress_type =
          "real")) ∧
    (c4State.fallback_active = true ∧ c4State.real_progress = some 5 ∧
      ((((continuity_transition idPow c4State 21 0 0).fallback_active = false) ↔
        (get_simulated_progress idPow c4State 21 0).2 < 5) ∧
        ((get_simulated_progress idPow c4State 21 0).2 < 5 →
          (continuity_transition idPow c4State 21 0 0).progress_type = "real"))) :=
  ⟨⟨by norm_num, by norm_num, rfl,
      C4_fallback_deactivation.1 c4State 21 10 none none none (by norm_num) (by norm_num) rfl⟩,
    ⟨rfl, rfl, C4_fallback_deactivation.2 idPow c4State 21 0 0 5 rfl rfl⟩⟩

theorem gsp_spec (P : PowFns) (s : ProgressState) (now v : ℚ) :
    ∃ g : GenState,
      (get_simulated_progress P s now v).1.fallback_generator = some g ∧
      (get_simulated_progress P s now v).2 = g.current_progress ∧
      0 ≤ (get_simulated_progress P s now v).2 ∧
      (get_simulated_progress P s now v).2 ≤ 95 := by
  refine ⟨(update_progress P
      (match s.fallback_generator with
       | some g => g
       | none => initGen s.client_id now s.estimated_duration) now v).1, rfl, ?_, ?_, ?_⟩
  · exact (update_progress_fst_current _ _ _ _).symm
  · exact (update_progress_mem _ _ _ _).1
  · exact (update_progress_mem _ _ _ _).2

/-- Claim C9: for a `ProgressState` in which no real sample has ever been
accepted, `get_current_progress()` is total and never returns null, even
before the fallback grace period has elapsed: it lazily creates (or reuses)
the fallback generator and returns its synthetic output (a value in [0, 95]
equal to the stored generator's current progress), while `fallback_active`
becomes true exactly when the grace period is exceeded and stays false
otherwise. -/
theorem C9_get_current_progress_total (P : PowFns) (s : ProgressState) (now v : ℚ)
    (hr : s.real_progress = none) (hl : s.last_real_update = none)
    (hf : s.fallback_active = false) :
    ∃ g : GenState,
      (get_current_progress P s now v).1.fallback_generator = some g ∧
      (get_current_progress P s now v).2 = g.current_progress ∧
      0 ≤ (get_current_progress P s now v).2 ∧
      (get_current_progress P s now v).2 ≤ 95 ∧
      ((get_current_progress P s now v).1.fallback_active = true ↔
        s.fallback_timeout < now - s.download_start_time) := by
  by_cases hg : s.fallback_timeout < now - s.download_start_time
  · have hs1 : check_fallback_activation s now = activate_fallback s now := by
      simp [check_fallback_activation, hf, hl, hg]
    have hact : (activate_fallback s now).fallback_active = true := by
      simp [activate_fallback, hf]
    have hgc : get_current_progress P s now v =
        get_simulated_progress P (activate_fallback s now) now v := by
      simp [get_current_progress, hs1, hact]
    obtain ⟨g, h1, h2, h3, h4⟩ := gsp_spec P (activate_fallback s now) now v
    refine ⟨g, ?_, ?_, ?_, ?_, ?_⟩
    · rw [hgc]; exact h1
    · rw [hgc]; exact h2
    · rw [hgc]; exact h3
    · rw [hgc]; exact h4
    · rw [hgc, gsp_fallback_active, hact]
      simp [hg]
  · have hs1 : check_fallback_activation s now = s := by
      simp [check_fallback_activation, hf, hl, hg]
    have hgc : get_current_progress P s now v = get_simulated_progress P s now v := by
      simp [get_current_progress, hs1, hf, hr]
    obtain ⟨g, h1, h2, h3, h4⟩ := gsp_spec P s now v
    refine ⟨g, ?_, ?_, ?_, ?_, ?_⟩
    · rw [hgc]; exact h1
    · rw [hgc]; exact h2
    · rw [hgc]; exact h3
    · rw [hgc]; exact h4
    · rw [hgc, gsp_fallback_active, hf]
      simp [hg]

/-- A fresh state two seconds into the job: still inside the five-second grace
period, no real sample ever accepted. -/
def c9State : ProgressState := initProgressState "c9" 0

theorem C9_witness :
    c9State.real_progress = none ∧ c9State.last_real_update = none ∧
      c9State.fallback_active = false ∧
      (∃ g : GenState,
        (get_current_progress idPow c9State 2 0).1.fallback_generator = some g ∧
        (get_current_progress idPow c9State 2 0).2 = g.current_progress ∧
        0 ≤ (get_current_progress idPow c9State 2 0).2 ∧
        (get_current_progress idPow c9State 2 0).2 ≤ 95 ∧
        ((get_current_progress idPow c9State 2 0).1.fallback_active = true ↔
          c9State.fallback_timeout < 2 - c9State.download_start_time)) :=
  ⟨rfl, rfl, rfl, C9_get_current_progress_total idPow c9State 2 0 rfl rfl rfl⟩

/-- Per-client record of `_websocket_failure_tracking` (the per-job
FailureRecord / circuit breaker). -/
structure FailureInfo where
  consecutive_failures : ℕ
  total_failures : ℕ
  last_failure_time : Option ℚ
  circuit_breaker_until : Option ℚ
  degraded_mode : Bool
  retry_attempts : ℕ
deriving DecidableEq

/-- The default record created on first access. -/
def freshFailureInfo : FailureInfo :=
  { consecutive_failures := 0
    total_failures := 0
    last_failure_time := none
    circuit_breaker_until := none
    degraded_mode := false
    retry_attempts := 0 }

/-- `DownloadWorker._handle_websocket_failure` on one client's record at
wall-clock time `now`: increment the counters, then open the circuit breaker
for 60 seconds at ≥ 5 consecutive failures, or enter degraded mode at ≥ 3. -/
def handle_websocket_failure (f : FailureInfo) (now : ℚ) : FailureInfo :=
  let f1 := { f with consecutive_failures := f.consecutive_failures + 1,
                     total_failures := f.total_failures + 1,
                     last_failure_time := some now,
                     retry_attempts := f.retry_attempts + 1 }
  if 5 ≤ f1.consecutive_failures then
    { f1 with circuit_breaker_until := some (now + 60) }
  else if 3 ≤ f1.consecutive_failures then
    { f1 with degraded_mode := true }
  else f1

/-- The field resets performed in place by
`DownloadWorker._reset_websocket_failure_tracking` on a present record:
consecutive failures, circuit breaker, degraded mode and retry attempts are
cleared; `total_failures` is kept for statistics. -/
def reset_failure_fields (f : FailureInfo) : FailureInfo :=
  { f with consecutive_failures := 0
           circuit_breaker_until := none
           degraded_mode := false
           retry_attempts := 0 }

/-- A sequence of consecutive delivery failures, one timestamp per failure. -/
def iterFailures (f : FailureInfo) : List ℚ → FailureInfo
  | [] => f
  | t :: ts => iterFailures (handle_websocket_failure f t) ts

theorem hwf_consecutive (f : FailureInfo) (t : ℚ) :
    (handle_websocket_failure f t).consecutive_failures = f.consecutive_failures + 1 := by
  unfold handle_websocket_failure
  dsimp only
  repeat' split
  all_goals rfl

theorem hwf_total (f : FailureInfo) (t : ℚ) :
    (handle_websocket_failure f t).total_failures = f.total_failures + 1 := by
  unfold handle_websocket_failure
  dsimp only
  repeat' split
  all_goals rfl

theorem hwf_degraded_mono (f : FailureInfo) (t : ℚ) (h : f.degraded_mode = true) :
    (handle_websocket_failure f t).degraded_mode = true := by
  unfold handle_websocket_failure
  dsimp only
  repeat' split
  all_goals simp [h]

theorem hwf_degraded_set (f : FailureInfo) (t : ℚ) (h : f.consecutive_failures = 2) :
    (handle_websocket_failure f t).degraded_mode = true := by
  unfold handle_websocket_failure
  dsimp only
  rw [if_neg (by simp [h]), if_pos (by simp [h])]

theorem hwf_cb_set (f : FailureInfo) (t : ℚ) (h : 4 ≤ f.consecutive_failures) :
    (handle_websocket_failure f t).last_failure_time = some t ∧
    (handle_websocket_failure f t).circuit_breaker_until = some (t + 60) := by
  unfold handle_websocket_failure
  dsimp only
  rw [if_pos (by simp; omega)]
  exact ⟨rfl, rfl⟩

theorem iter_degraded_mono (ts : List ℚ) (f : FailureInfo) (h : f.degraded_mode = true) :
    (iterFailures f ts).degraded_mode = true := by
  induction ts generalizing f with
  | nil => exact h
  | cons t rest ih => exact ih _ (hwf_degraded_mono f t h)

theorem iter_total (ts : List ℚ) (f : FailureInfo) :
    (iterFailures f ts).total_failures = f.total_failures + ts.length := by
  induction ts generalizing f with
  | nil => rfl
  | cons t rest ih =>
    rw [iterFailures, ih, hwf_total, List.length_cons]
    omega

theorem iter_cb_tail (ts : List ℚ) (f : FailureInfo) (h4 : 4 ≤ f.consecutive_failures)
    (hne : ts ≠ []) :
    ∃ l, (iterFailures f ts).last_failure_time = some l ∧
      (iterFailures f ts).circuit_breaker_until = some (l + 60) := by
  induction ts generalizing f with
  | nil => exact absurd rfl hne
  | cons t rest ih =>
    cases rest with
    | nil =>
      obtain ⟨h1, h2⟩ := hwf_cb_set f t h4
      exact ⟨t, h1, h2⟩
    | cons t2 rest2 =>
      refine ih (handle_websocket_failure f t) ?_ (by simp)
      rw [hwf_consecutive]
      omega

/-- Claim C3: starting from a record with no consecutive failures, a run of 3
or more consecutive failures sets `degraded_mode`; a run of 5 or more leaves
`circuit_breaker_until` at a non-null time 60 seconds after the last failure
(strictly in that failure's future); a single successful delivery resets
`consecutive_failures` to 0 and clears `circuit_breaker_until` and
`degraded_mode`; and no operation — neither a failure nor a reset — ever
decreases `total_failures`. -/
theorem C3_failure_tracker (f : FailureInfo) (ts : List ℚ)
    (hc : f.consecutive_failures = 0) :
    (3 ≤ ts.length → (iterFailures f ts).degraded_mode = true) ∧
    (5 ≤ ts.length → ∃ l, (iterFailures f ts).last_failure_time = some l ∧
      (iterFailures f ts).circuit_breaker_until = some (l + 60) ∧ l < l + 60) ∧
    (∀ g : FailureInfo,
      (reset_failure_fields g).consecutive_failures = 0 ∧
      (reset_failure_fields g).circuit_breaker_until = none ∧
      (reset_failure_fields g).degraded_mode = false ∧
      (reset_failure_fields g).total_failures = g.total_failures) ∧
    ((iterFailures f ts).total_failures = f.total_failures + ts.length) ∧
    (∀ (g : FailureInfo) (t : ℚ),
      g.total_failures ≤ (handle_websocket_failure g t).total_failures) := by
  refine ⟨?_, ?_, fun g => ⟨rfl, rfl, rfl, rfl⟩, iter_total ts f, ?_⟩
  · intro h3
    obtain ⟨a, b, c, rest, rfl⟩ : ∃ a b c rest, ts = a :: b :: c :: rest := by
      match ts, h3 with
      | a :: b :: c :: rest, _ => exact ⟨a, b, c, rest, rfl⟩
    have h2 : (handle_websocket_failure (handle_websocket_failure f a) b).consecutive_failures
        = 2 := by
      rw [hwf_consecutive, hwf_consecutive, hc]
    exact iter_degraded_mono rest _ (hwf_degraded_set _ c h2)
  · intro h5
    obtain ⟨a, b, c, d, rest, rfl⟩ : ∃ a b c d rest, ts = a :: b :: c :: d :: rest := by
      match ts, h5 with
      | a :: b :: c :: d :: rest, _ => exact ⟨a, b, c, d, rest, rfl⟩
    have hlen : rest ≠ [] := by
      intro h
      rw [h] at h5
      simp at h5
    have h4 : (handle_websocket_failure (handle_websocket_failure
        (handle_websocket_failure (handle_websocket_failure f a) b) c) d).consecutive_failures
        = 4 := by
      rw [hwf_consecutive, hwf_consecutive, hwf_consecutive, hwf_consecutive, hc]
    obtain ⟨l, hl1, hl2⟩ := iter_cb_tail rest _ h4.ge hlen
    exact ⟨l, hl1, hl2, by linarith⟩
  · intro g t
    rw [hwf_total]
    omega

theorem C3_witness :
    freshFailureInfo.consecutive_failures = 0 ∧
      3 ≤ ([0, 1, 2, 3, 4] : List ℚ).length ∧
      (iterFailures freshFailureInfo [0, 1, 2, 3, 4]).degraded_mode = true ∧
      (5 ≤ ([0, 1, 2, 3, 4] : List ℚ).length →
        ∃ l, (iterFailures freshFailureInfo [0, 1, 2, 3, 4]).last_failure_time = some l ∧
          (iterFailures freshFailureInfo [0, 1, 2, 3, 4]).circuit_breaker_until =
            some (l + 60) ∧ l < l + 60) :=
  ⟨rfl, by norm_num,
    (C3_failure_tracker freshFailureInfo [0, 1, 2, 3, 4] rfl).1 (by norm_num),
    (C3_failure_tracker freshFailureInfo [0, 1, 2, 3, 4] rfl).2.1⟩

/-- Per-client record of `_stall_detection`. -/
structure StallInfo where
  last_progress_change : ℚ
  last_progress_value : ℚ
  stall_warnings : ℕ
  recovery_attempts : ℕ
  process_start_time : ℚ
deriving DecidableEq

/-- The default record created on first access at wall-clock time `now`. -/
def initStallInfo (now : ℚ) : StallInfo :=
  { last_progress_change := now
    last_progress_value := 0
    stall_warnings := 0
    recovery_attempts := 0
    process_start_time := now }

/-- Python `f"{x:.0f}"`: format rounded to zero decimals (round half to even). -/
def fmtSeconds (q : ℚ) : String := toString (pyRoundHalfEven q)

/-- `DownloadWorker._detect_download_stall` on one client's record at
wall-clock time `now`, given the state's `real_progress` (Python
`real_progress or 0.0` maps both `None` and `0.0` to `0.0`): returns the
updated record, the stall flag, and the reason string. -/
def detect_download_stall (real_progress : Option ℚ) (info : StallInfo) (now : ℚ) :
    StallInfo × Bool × String :=
  let current_progress := match real_progress with
                          | none => 0
                          | some p => p
  if info.last_progress_value + 1/10 < current_progress then
    ({ info with last_progress_change := now, last_progress_value := current_progress,
                 stall_warnings := 0 }, false, "active")
  else
    let time_since_progress := now - info.last_progress_change
    let time_since_start := now - info.process_start_time
    let stall_threshold : ℚ := if current_progress < 5 then 30
                               else if 95 < current_progress then 45 else 20
    if stall_threshold < time_since_progress then
      ({ info with stall_warnings := info.stall_warnings + 1 }, true,
        "no_progress_for_" ++ fmtSeconds time_since_progress ++ "s")
    else if 600 < time_since_start ∧ current_progress < 10 then
      ({ info with stall_warnings := info.stall_warnings + 1 }, true,
        "slow_start_" ++ fmtSeconds time_since_start ++ "s")
    else (info, false, "active")

/-- A record stuck at 40.0 since t = 0 whose next sample at t = 25 is 40.1 —
an increase of exactly 0.1. -/
def c5Info : StallInfo :=
  { last_progress_change := 0
    last_progress_value := 40
    stall_warnings := 0
    recovery_attempts := 0
    process_start_time := 0 }

theorem C5_counterexample :
    (401/10 : ℚ) - c5Info.last_progress_value = 1/10 ∧
    detect_download_stall (some (401/10)) c5Info 25 =
      ({ c5Info with stall_warnings := 1 }, true, "no_progress_for_25s") ∧
    (detect_download_stall (some (401/10)) c5Info 25).2.1 ≠ false ∧
    (detect_download_stall (some (401/10)) c5Info 25).2.2 ≠ "active" := by
  refine ⟨?_, ?_, ?_, ?_⟩ <;> with_unfolding_all decide

/-- Claim C5 (amended): a progress increase of strictly more than 0.1 (`>`,
not `≥`) resets the stall timer and warning count and yields
`(false, "active")`; otherwise a `no_progress_for_..s` stall is reported
exactly when the time since the last progress change exceeds the
phase-dependent threshold — 30s while progress is below 5, 45s while progress
is above 95, 20s otherwise — and additionally a `slow_start_..s` stall is
reported when the phase threshold is not exceeded but elapsed time since
process start exceeds 600s with progress below 10. -/
theorem C5_stall_detection (rp : Option ℚ) (info : StallInfo) (now : ℚ) :
    (∀ current : ℚ, current = (match rp with | none => 0 | some p => p) →
      (info.last_progress_value + 1/10 < current →
        detect_download_stall rp info now =
          ({ info with last_progress_change := now, last_progress_value := current,
                       stall_warnings := 0 }, false, "active")) ∧
      (¬ info.last_progress_value + 1/10 < current →
        ∀ thr : ℚ, thr = (if current < 5 then (30:ℚ) else if 95 < current then 45 else 20) →
          ((detect_download_stall rp info now).2.1 = true ↔
            (thr < now - info.last_progress_change ∨
              (600 < now - info.process_start_time ∧ current < 10))) ∧
          (thr < now - info.last_progress_change →
            (detect_download_stall rp info now).2.2 =
              "no_progress_for_" ++ fmtSeconds (now - info.last_progress_change) ++ "s" ∧
            (detect_download_stall rp info now).1.stall_warnings =
              info.stall_warnings + 1) ∧
          (¬ thr < now - info.last_progress_change →
            600 < now - info.process_start_time → current < 10 →
            (detect_download_stall rp info now).2.2 =
              "slow_start_" ++ fmtSeconds (now - info.process_start_time) ++ "s") ∧
          (¬ thr < now - info.last_progress_change →
            ¬ (600 < now - info.process_start_time ∧ current < 10) →
            detect_download_stall rp info now = (info, false, "active")))) := by
  intro current hcur
  constructor
  · intro hinc
    rw [detect_download_stall.eq_def]
    dsimp only
    rw [← hcur, if_pos hinc]
  · intro hninc thr hthr
    have hbase : detect_download_stall rp info now =
        (if thr < now - info.last_progress_change then
          ({ info with stall_warnings := info.stall_warnings + 1 }, true,
            "no_progress_for_" ++ fmtSeconds (now - info.last_progress_change) ++ "s")
        else if 600 < now - info.process_start_time ∧ current < 10 then
          ({ info with stall_warnings := info.stall_warnings + 1 }, true,
            "slow_start_" ++ fmtSeconds (now - info.process_start_time) ++ "s")
        else (info, false, "active")) := by
      rw [detect_download_stall.eq_def]
      dsimp only
      rw [← hcur, if_neg hninc, ← hthr]
    by_cases h1 : thr < now - info.last_progress_change
    · rw [hbase, if_pos h1]
      refine ⟨by simp [h1], fun _ => ⟨rfl, rfl⟩, fun h1n => absurd h1 h1n, fun h1n => absurd h1 h1n⟩
    · by_cases h2 : 600 < now - info.process_start_time ∧ current < 10
      · rw [hbase, if_neg h1, if_pos h2]
        exact ⟨by simp [h1, h2], fun h => absurd h h1, fun _ _ _ => rfl, fun _ h2n => absurd h2 h2n⟩
      · rw [hbase, if_neg h1, if_neg h2]
        exact ⟨by simp [h1, h2], fun h => absurd h h1,
          fun _ h600 h10 => absurd ⟨h600, h10⟩ h2, fun _ _ => rfl⟩

theorem C5_witness :
    ((40:ℚ) = 40) ∧ (c5Info.last_progress_value + 1/10 < 45) ∧
      detect_download_stall (some 45) c5Info 3 =
        ({ c5Info with last_progress_change := 3, last_progress_value := 45,
                       stall_warnings := 0 }, false, "active") :=
  ⟨rfl, by norm_num [c5Info],
    ((C5_stall_detection (some 45) c5Info 3) 45 rfl).1 (by norm_num [c5Info])⟩

/-- The process-control action taken by a recovery attempt:
`SIGTERM` followed by `wait(timeout)` seconds, or a force kill. -/
inductive ProcAction where
  | terminate_then_wait (timeout : ℚ)
  | kill
deriving DecidableEq

/-- Result of `DownloadWorker._handle_download_stall`: the updated stall
record, the process action performed (if any), whether fallback progress was
activated on the client's `ProgressState`, and the returned boolean. -/
structure RecoveryOutcome where
  info : StallInfo
  action : Option ProcAction
  fallback_activated : Bool
  success : Bool
deriving DecidableEq

/-- `DownloadWorker._handle_download_stall` given whether the monitored
process is still running (`process and process.poll() is None`).  On the
first attempt: terminate, wait up to 10 seconds, activate fallback; on the
second: kill, activate fallback; afterwards: give up and return `False`.
When the process is no longer running, the guarded block is skipped and the
function falls through to its final `return False`. -/
def handle_download_stall (info : StallInfo) (process_running : Bool) : RecoveryOutcome :=
  if info.recovery_attempts = 0 then
    if process_running then
      { info := { info with recovery_attempts := 1 }
        action := some (.terminate_then_wait 10)
        fallback_activated := true
        success := true }
    else
      { info := info, action := none, fallback_activated := false, success := false }
  else if info.recovery_attempts = 1 then
    if process_running then
      { info := { info with recovery_attempts := 2 }
        action := some .kill
        fallback_activated := true
        success := true }
    else
      { info := info, action := none, fallback_activated := false, success := false }
  else
    { info := info, action := none, fallback_activated := false, success := false }

/-- What the monitoring loop in `download_file` does after a stall was handled. -/
inductive MonitorStep where
  | keepMonitoring
  | failJob
deriving DecidableEq

/-- `download_file`, reaction to the recovery result (worker.py lines
1827-1833): both the success branch and the failure branch only log and fall
through to the next monitoring iteration; no branch breaks the loop, raises,
or sends an error status. -/
def stall_recovery_reaction (recovery_success : Bool) : MonitorStep :=
  if recovery_success then MonitorStep.keepMonitoring else MonitorStep.keepMonitoring

/-- A stall record on which recovery has already been attempted twice. -/
def c6Info : StallInfo :=
  { last_progress_change := 0
    last_progress_value := 40
    stall_warnings := 3
    recovery_attempts := 2
    process_start_time := 0 }

theorem C6_counterexample :
    (handle_download_stall c6Info true).action = none ∧
    (handle_download_stall c6Info true).fallback_activated = false ∧
    (handle_download_stall c6Info true).success = false ∧
    stall_recovery_reaction (handle_download_stall c6Info true).success =
      MonitorStep.keepMonitoring ∧
    MonitorStep.keepMonitoring ≠ MonitorStep.failJob := by
  refine ⟨?_, ?_, ?_, ?_, ?_⟩ <;> decide

/-- Claim C6 (amended): against a running process, the first detected stall
sends a graceful termination, waits up to 10 seconds and activates fallback
progress; the second force-kills the process (and activates fallback); on the
third and any further detection no recovery is attempted and the handler
returns failure — but the monitoring loop merely logs this and keeps
monitoring with fallback progress: the stall is not surfaced as a terminal
job failure. -/
theorem C6_stall_recovery_escalation (info : StallInfo) :
    (info.recovery_attempts = 0 →
      handle_download_stall info true =
        { info := { info with recovery_attempts := 1 }
          action := some (.terminate_then_wait 10)
          fallback_activated := true
          success := true }) ∧
    (info.recovery_attempts = 1 →
      handle_download_stall info true =
        { info := { info with recovery_attempts := 2 }
          action := some .kill
          fallback_activated := true
          success := true }) ∧
    (2 ≤ info.recovery_attempts →
      handle_download_stall info true =
        { info := info, action := none, fallback_activated := false, success := false }) ∧
    (∀ b : Bool, stall_recovery_reaction b = MonitorStep.keepMonitoring) := by
  refine ⟨?_, ?_, ?_, ?_⟩
  · intro h
    rw [handle_download_stall, if_pos h, if_pos rfl]
  · intro h
    rw [handle_download_stall, if_neg (by omega), if_pos h, if_pos rfl]
  · intro h
    rw [handle_download_stall, if_neg (by omega), if_neg (by omega)]
  · intro b
    cases b <;> rfl

theorem C6_witness :
    (initStallInfo 0).recovery_attempts = 0 ∧
      handle_download_stall (initStallInfo 0) true =
        { info := { initStallInfo 0 with recovery_attempts := 1 }
          action := some (.terminate_then_wait 10)
          fallback_activated := true
          success := true } ∧
      stall_recovery_reaction false = MonitorStep.keepMonitoring :=
  ⟨rfl, (C6_stall_recovery_escalation (initStallInfo 0)).1 rfl,
    (C6_stall_recovery_escalation (initStallInfo 0)).2.2.2 false⟩

/-- A generator with the default 300-second estimate (medium pattern). -/
def c7Gen : GenState := initGen "c7" 0 (some 300)

theorem C7_counterexample :
    progressRange Phase.initialization = (0, 15) ∧
    progressRange Phase.initialization ≠ (25, 35) ∧
    calculate_phase_progress idPow c7Gen Phase.initialization 0 0 = 0 ∧
    (calculate_phase_progress idPow c7Gen Phase.initialization 0 0 < 25) := by
  refine ⟨?_, ?_, ?_, ?_⟩ <;> with_unfolding_all decide

/-- Claim C7 (amended): the per-phase progress ranges are initialization
0-15, downloading 15-85, finalizing 85-95 (not 25-35/35-85/85-95); for every
tick whose phase-elapsed time is nonnegative, and for any shaping power curves
mapping [0,1] into [0,1] (as the real `r ** 0.9` and `r ** 1.5` do), the
synthetic target produced while a phase is current lies within that phase's
(min, max) range before variance is applied — so every initialization-phase
target is at least 0, not 25. -/
theorem C7_phase_ranges (P : PowFns)
    (h09 : ∀ r : ℚ, 0 ≤ r → r ≤ 1 → 0 ≤ P.pow09 r ∧ P.pow09 r ≤ 1)
    (h15 : ∀ r : ℚ, 0 ≤ r → r ≤ 1 → 0 ≤ P.pow15 r ∧ P.pow15 r ≤ 1)
    (g : GenState) (phase : Phase) (elapsed_seconds phase_elapsed : ℚ)
    (hpe : 0 ≤ phase_elapsed) :
    progressRange Phase.initialization = (0, 15) ∧
    progressRange Phase.downloading = (15, 85) ∧
    progressRange Phase.finalizing = (85, 95) ∧
    (progressRange phase).1 ≤
      calculate_phase_progress P g phase elapsed_seconds phase_elapsed ∧
    calculate_phase_progress P g phase elapsed_seconds phase_elapsed ≤
      (progressRange phase).2 := by
  refine ⟨rfl, rfl, rfl, ?_⟩
  have hmm : (progressRange phase).1 ≤ (progressRange phase).2 := by
    cases phase <;> norm_num [progressRange]
  unfold calculate_phase_progress
  dsimp only
  split
  · exact ⟨le_refl _, hmm⟩
  · rename_i hpd
    push_neg at hpd
    have hr0 : 0 ≤ min 1 (phase_elapsed / (g.estimated_duration * patternShare g.pattern phase)) :=
      le_min (by norm_num) (div_nonneg hpe (le_of_lt hpd))
    have hr1 : min 1 (phase_elapsed / (g.estimated_duration * patternShare g.pattern phase)) ≤ 1 :=
      min_le_left _ _
    have hshape : 0 ≤ shapedOf P phase
          (min 1 (phase_elapsed / (g.estimated_duration * patternShare g.pattern phase))) ∧
        shapedOf P phase
          (min 1 (phase_elapsed / (g.estimated_duration * patternShare g.pattern phase))) ≤ 1 := by
      cases phase with
      | initialization =>
        constructor <;> · simp only [shapedOf]; nlinarith [hr0, hr1]
      | downloading => exact h09 _ hr0 hr1
      | finalizing => exact h15 _ hr0 hr1
    constructor
    · refine le_min hmm ?_
      nlinarith [hshape.1, hmm]
    · exact min_le_left _ _

theorem C7_witness :
    (∀ r : ℚ, 0 ≤ r → r ≤ 1 → 0 ≤ idPow.pow09 r ∧ idPow.pow09 r ≤ 1) ∧
      (0 : ℚ) ≤ 0 ∧
      ((progressRange Phase.initialization = (0, 15) ∧
        progressRange Phase.downloading = (15, 85) ∧
        progressRange Phase.finalizing = (85, 95) ∧
        (progressRange Phase.initialization).1 ≤
          calculate_phase_progress idPow c7Gen Phase.initialization 0 0 ∧
        calculate_phase_progress idPow c7Gen Phase.initialization 0 0 ≤
          (progressRange Phase.initialization).2)) :=
  ⟨fun r h0 h1 => ⟨h0, h1⟩, le_refl 0,
    C7_phase_ranges idPow (fun r h0 h1 => ⟨h0, h1⟩) (fun r h0 h1 => ⟨h0, h1⟩)
      c7Gen Phase.initialization 0 0 (le_refl 0)⟩

/-- Association-list lookup for the worker's string-keyed dicts. -/
def lookupKey {α : Type} (m : List (String × α)) (k : String) : Option α :=
  match m with
  | [] => none
  | (k1, v) :: rest => if k1 = k then some v else lookupKey rest k

/-- `del d[k]` on a string-keyed dict. -/
def removeKey {α : Type} (m : List (String × α)) (k : String) : List (String × α) :=
  m.filter (fun q => q.1 ≠ k)

/-- The `DownloadWorker` per-job tracking state touched by
`cleanup_progress_state`: the five string-keyed dicts plus the progress and
connection-quality caches (cache values are modelled as rationals; the
cleanup code never inspects them, only the keys). -/
structure WorkerState where
  progress_states : List (String × ProgressState)
  stall_detection : List (String × StallInfo)
  websocket_failure_tracking : List (String × FailureInfo)
  parsing_failure_counts : List (String × ℕ)
  progress_cache : List (String × ℚ)
  connection_quality_cache : List (String × ℚ)
deriving DecidableEq

/-- `DownloadWorker._reset_stall_detection`: delete the client's stall record
if present. -/
def reset_stall_detection (w : WorkerState) (client_id : String) : WorkerState :=
  { w with stall_detection := removeKey w.stall_detection (client_id ++ "_stall_detection") }

/-- `DownloadWorker._reset_websocket_failure_tracking`: reset the fields of
the client's delivery-failure record in place if present — the record itself
is kept (total failures survive for statistics). -/
def reset_websocket_failure_tracking (w : WorkerState) (client_id : String) : WorkerState :=
  { w with websocket_failure_tracking :=
      w.websocket_failure_tracking.map (fun q =>
        if q.1 = client_id ++ "_websocket_failures"
        then (q.1, reset_failure_fields q.2) else q) }

/-- `DownloadWorker._reset_parsing_failure_count`: zero the client's parse
failure counter in place if present. -/
def reset_parsing_failure_count (w : WorkerState) (client_id : String) : WorkerState :=
  { w with parsing_failure_counts :=
      w.parsing_failure_counts.map (fun q =>
        if q.1 = client_id ++ "_parsing_failures" then (q.1, 0) else q) }

/-- `DownloadWorker.cleanup_progress_state`: delete the progress state,
reset the three error-handling trackers, and delete every throttling and
connection-quality cache entry whose key starts with `f"{client_id}_"`. -/
def cleanup_progress_state (w : WorkerState) (client_id : String) : WorkerState :=
  let w1 := { w with progress_states := removeKey w.progress_states client_id }
  let w2 := reset_stall_detection w1 client_id
  let w3 := reset_websocket_failure_tracking w2 client_id
  let w4 := reset_parsing_failure_count w3 client_id
  let w5 := { w4 with progress_cache :=
      w4.progress_cache.filter (fun q => !(q.1.startsWith (client_id ++ "_"))) }
  { w5 with connection_quality_cache :=
      w5.connection_quality_cache.filter (fun q => !(q.1.startsWith (client_id ++ "_"))) }

theorem lookup_removeKey {α : Type} (m : List (String × α)) (k : String) :
    lookupKey (removeKey m k) k = none := by
  induction m with
  | nil => rfl
  | cons q rest ih =>
    by_cases h : q.1 = k
    · simpa [removeKey, lookupKey, h] using ih
    · simpa [removeKey, lookupKey, h] using ih

theorem lookup_filter_startsWith {α : Type} (m : List (String × α)) (pre k : String)
    (hk : k.startsWith pre = true) :
    lookupKey (m.filter (fun q => !(q.1.startsWith pre))) k = none := by
  induction m with
  | nil => rfl
  | cons q rest ih =>
    by_cases h : q.1.startsWith pre
    · simpa [h] using ih
    · have hne : q.1 ≠ k := by
        intro he
        rw [he] at h
        exact h hk
      simpa [h, lookupKey, hne] using ih

theorem lookup_map_reset {α : Type} (m : List (String × α)) (key : String) (f : α → α) :
    lookupKey (m.map (fun q => if q.1 = key then (q.1, f q.2) else q)) key =
      (lookupKey m key).map f := by
  induction m with
  | nil => rfl
  | cons q rest ih =>
    obtain ⟨k1, v⟩ := q
    rw [List.map_cons]
    dsimp only
    rcases eq_or_ne k1 key with h | h
    · subst h
      rw [if_pos rfl]
      show lookupKey ((k1, f v) :: _) k1 = Option.map f (lookupKey ((k1, v) :: rest) k1)
      rw [lookupKey, lookupKey, if_pos rfl, if_pos rfl]
      rfl
    · rw [if_neg h]
      show lookupKey ((k1, v) :: _) key = Option.map f (lookupKey ((k1, v) :: rest) key)
      rw [lookupKey, lookupKey, if_neg h, if_neg h]
      exact ih

/-- A worker state in which client `c1` has accumulated seven total delivery
failures. -/
def c8Fail : FailureInfo :=
  { freshFailureInfo with
      consecutive_failures := 5
      total_failures := 7
      degraded_mode := true
      circuit_breaker_until := some 100 }

def c8W : WorkerState :=
  { progress_states := [("c1", initProgressState "c1" 0)]
    stall_detection := [("c1_stall_detection", initStallInfo 0)]
    websocket_failure_tracking := [("c1_websocket_failures", c8Fail)]
    parsing_failure_counts := [("c1_parsing_failures", 2)]
    progress_cache := [("c1_last_progress_update", 3)]
    connection_quality_cache := [("c1_failed_requests", 4)]
  }

theorem C8_counterexample :
    lookupKey (cleanup_progress_state c8W "c1").websocket_failure_tracking
      "c1_websocket_failures" = some (reset_failure_fields c8Fail) ∧
    (reset_failure_fields c8Fail).total_failures = 7 ∧
    lookupKey (cleanup_progress_state c8W "c1").websocket_failure_tracking
      "c1_websocket_failures" ≠ none ∧
    reset_failure_fields c8Fail ≠ freshFailureInfo := by
  refine ⟨?_, ?_, ?_, ?_⟩ <;> with_unfolding_all decide

/-- Claim C8 (amended): `cleanup(client_id)` removes the progress state, the
stall record, and every throttling and connection-quality cache entry for
that id, and zeroes the parsing-failure count; but the delivery-failure
record is not removed — it is reset in place (consecutive failures, circuit
breaker, degraded mode, retry attempts cleared) with its lifetime
`total_failures` preserved, so a subsequent operation still observes the old
total rather than a fresh record. -/
theorem C8_cleanup (w : WorkerState) (cid : String) :
    lookupKey (cleanup_progress_state w cid).progress_states cid = none ∧
    lookupKey (cleanup_progress_state w cid).stall_detection
      (cid ++ "_stall_detection") = none ∧
    (∀ k : String, k.startsWith (cid ++ "_") = true →
      lookupKey (cleanup_progress_state w cid).progress_cache k = none) ∧
    (∀ k : String, k.startsWith (cid ++ "_") = true →
      lookupKey (cleanup_progress_state w cid).connection_quality_cache k = none) ∧
    lookupKey (cleanup_progress_state w cid).parsing_failure_counts
      (cid ++ "_parsing_failures") =
      (lookupKey w.parsing_failure_counts (cid ++ "_parsing_failures")).map (fun _ => 0) ∧
    lookupKey (cleanup_progress_state w cid).websocket_failure_tracking
      (cid ++ "_websocket_failures") =
      (lookupKey w.websocket_failure_tracking (cid ++ "_websocket_failures")).map
        reset_failure_fields := by
  refine ⟨?_, ?_, ?_, ?_, ?_, ?_⟩
  · exact lookup_removeKey _ _
  · exact lookup_removeKey _ _
  · intro k hk
    exact lookup_filter_startsWith _ _ _ hk
  · intro k hk
    exact lookup_filter_startsWith _ _ _ hk
  · simpa [cleanup_progress_state, reset_stall_detection,
      reset_websocket_failure_tracking, reset_parsing_failure_count] using
      lookup_map_reset w.parsing_failure_counts (cid ++ "_parsing_failures") (fun _ => 0)
  · simpa [cleanup_progress_state, reset_stall_detection,
      reset_websocket_failure_tracking, reset_parsing_failure_count] using
      lookup_map_reset w.websocket_failure_tracking (cid ++ "_websocket_failures")
        reset_failure_fields

theorem C8_witness :
    ("c1_last_progress_update".startsWith ("c1" ++ "_") = true) ∧
      lookupKey (cleanup_progress_state c8W "c1").progress_states "c1" = none ∧
      lookupKey (cleanup_progress_state c8W "c1").progress_cache
        "c1_last_progress_update" = none ∧
      lookupKey (cleanup_progress_state c8W "c1").websocket_failure_tracking
        ("c1" ++ "_websocket_failures") =
        (lookupKey c8W.websocket_failure_tracking ("c1" ++ "_websocket_failures")).map
          reset_failure_fields :=
  ⟨by with_unfolding_all decide, (C8_cleanup c8W "c1").1,
    (C8_cleanup c8W "c1").2.2.1 "c1_last_progress_update" (by with_unfolding_all decide),
    (C8_cleanup c8W "c1").2.2.2.2.2⟩

/-- `DownloadWorker._assess_connection_quality`. -/
def assess_connection_quality (failed_requests : ℕ) (avg_response_time : ℚ)
    (update_count : ℕ) : String :=
  if update_count = 0 then "good"
  else
    let failure_rate : ℚ := (failed_requests : ℚ) / ((max update_count 1 : ℕ) : ℚ)
    if 3/10 < failure_rate ∨ 2 < avg_response_time then "poor"
    else if 1/10 < failure_rate ∨ 1 < avg_response_time then "fair"
    else "good"

/-- The three adaptive thresholds of `_get_adaptive_throttling_config`. -/
structure ThrottlingConfig where
  min_progress_diff : ℚ
  min_time_diff : ℚ
  max_time_diff : ℚ
deriving DecidableEq

/-- `DownloadWorker._get_adaptive_throttling_config`. -/
def get_adaptive_throttling_config (progress_rate : ℚ) (connection_quality : String)
    (metadata : Option Metadata) (is_degraded : Bool) : ThrottlingConfig :=
  let config : ThrottlingConfig :=
    { min_progress_diff := 2, min_time_diff := 2, max_time_diff := 5 }
  let config :=
    if 5 < progress_rate then
      { config with min_progress_diff := 1, min_time_diff := 1 }
    else if 2 < progress_rate then
      { config with min_progress_diff := 3/2, min_time_diff := 3/2 }
    else if progress_rate < 1/10 then
      { config with min_progress_diff := 1/2, min_time_diff := 3 }
    else config
  let config :=
    if connection_quality = "poor" then
      { config with min_time_diff := max (config.min_time_diff * (3/2)) 3,
                    max_time_diff := min (config.max_time_diff * (3/2)) 10 }
    else if connection_quality = "good" then
      { config with min_time_diff := max (config.min_time_diff * (4/5)) 1 }
    else config
  let config :=
    if is_degraded then
      { config with min_time_diff := max (config.min_time_diff * 2) 5,
                    max_time_diff := min (config.max_time_diff * 2) 15,
                    min_progress_diff := max (config.min_progress_diff * (3/2)) 5 }
    else config
  match metadata with
  | some m =>
    let config :=
      if m.progress_type = "simulated" ∨ m.progress_type = "hybrid" then
        { config with min_time_diff := max (config.min_time_diff * (7/10)) 1,
                      min_progress_diff := max (config.min_progress_diff * (7/10)) (1/2) }
      else config
    if m.is_stalled then
      { config with min_time_diff := max (config.min_time_diff * (1/2)) 1 }
    else config
  | none => config

/-- `sum(response_times[-10:]) / len(response_times[-10:])` with the 0.5
default for an empty list (`send_throttled_progress_update`). -/
def avgResponseTime (response_times : List ℚ) : ℚ :=
  if response_times = [] then 1/2
  else
    let recent := response_times.drop (response_times.length - 10)
    recent.sum / (recent.length : ℚ)

/-- The `should_send_update` decision of
`DownloadWorker.send_throttled_progress_update`: progress difference against
the adaptive threshold, maximum/minimum time window, near-completion and
just-started bypasses, and the unconditional send for non-`real` progress
types (`metadata and metadata.get("progress_type") != "real"`; the metadata
dict always carries its keys, so a present metadata argument is truthy). -/
def should_send_update (progress last_progress time_diff : ℚ)
    (failed_requests update_count : ℕ) (response_times : List ℚ)
    (is_degraded : Bool) (metadata : Option Metadata) : Bool :=
  let progress_diff := |progress - last_progress|
  let progress_rate := if 0 < time_diff then progress_diff / max time_diff (1/10) else 0
  let avg_response_time := avgResponseTime response_times
  let connection_quality :=
    assess_connection_quality failed_requests avg_response_time update_count
  let c := get_adaptive_throttling_config progress_rate connection_quality metadata is_degraded
  decide (c.min_progress_diff ≤ progress_diff) ||
  decide (c.max_time_diff ≤ time_diff) ||
  (decide (c.min_time_diff ≤ time_diff) && decide (1/10 < progress_rate)) ||
  decide (99 ≤ progress) ||
  decide (progress ≤ 1) ||
  (match metadata with
   | some m => decide (m.progress_type ≠ "real")
   | none => false)

/-- The circuit-breaker gate at the top of
`DownloadWorker._send_progress_request`: when `circuit_breaker_until` is set
and still in the future, the call returns `False` without any network
attempt. -/
def circuit_breaker_active (f : FailureInfo) (now : ℚ) : Bool :=
  match f.circuit_breaker_until with
  | some u => decide (now < u)
  | none => false

/-- Claim C10: whenever the metadata passed to the throttled sender has
progress_type `simulated` or `hybrid`, the throttle decision is
unconditionally to send — no threshold can suppress it — and the only way the
network call is then skipped is the circuit-breaker gate, which returns
false without attempting the request while `circuit_breaker_until` lies in
the future. -/
theorem C10_nonreal_always_sent :
    (∀ (progress last_progress time_diff : ℚ) (failed_requests update_count : ℕ)
        (response_times : List ℚ) (is_degraded : Bool) (m : Metadata),
      m.progress_type = "simulated" ∨ m.progress_type = "hybrid" →
      should_send_update progress last_progress time_diff failed_requests update_count
        response_times is_degraded (some m) = true) ∧
    (∀ (f : FailureInfo) (now u : ℚ), f.circuit_breaker_until = some u → now < u →
      circuit_breaker_active f now = true) := by
  constructor
  · intro progress last_progress time_diff failed_requests update_count
      response_times is_degraded m hm
    have hne : m.progress_type ≠ "real" := by
      rcases hm with h | h <;> simp [h]
    simp [should_send_update, hne]
  · intro f now u hcb hlt
    simp [circuit_breaker_active, hcb, hlt]

/-- A metadata record as produced while fallback simulation is running. -/
def c10Meta : Metadata :=
  { progress_type := "simulated"
    fallback_active := true
    current_phase := "downloading"
    is_stalled := false
    time_since_start := 7
    history_size := 0 }

/-- A failure record whose circuit breaker is open until t = 100. -/
def c10Fail : FailureInfo :=
  { freshFailureInfo with
      consecutive_failures := 5
      total_failures := 5
      circuit_breaker_until := some 100 }

theorem C10_witness :
    (c10Meta.progress_type = "simulated" ∨ c10Meta.progress_type = "hybrid") ∧
      should_send_update 50 50 0 0 5 [] false (some c10Meta) = true ∧
      c10Fail.circuit_breaker_until = some 100 ∧ (99 : ℚ) < 100 ∧
      circuit_breaker_active c10Fail 99 = true :=
  ⟨Or.inl rfl,
    C10_nonreal_always_sent.1 50 50 0 0 5 [] false c10Meta (Or.inl rfl),
    rfl, by norm_num,
    C10_nonreal_always_sent.2 c10Fail 99 100 rfl (by norm_num)⟩
